import Mathlib

/-!
Verification of the message-passing RPC server (`rpc_server.py`).

The server binds one ZeroMQ REP socket, then loops: receive one string
message, split it on single ASCII spaces, dispatch on the first token
(`GET`/`PUT`/other), and send exactly one reply.  We embed the message
handling as pure functions; an uncaught Python `IndexError` (out-of-bounds
list indexing) is modelled as `none`.
-/

namespace RpcServer

/-- Python's `str.split(" ")` on a list of characters: split on every single
space, keeping empty fields, so `"" ↦ [""]` and `"a  b" ↦ ["a","","b"]`. -/
def splitSpaces : List Char → List (List Char)
  | [] => [[]]
  | c :: rest =>
    if c = ' ' then [] :: splitSpaces rest
    else
      match splitSpaces rest with
      | [] => [[c]]
      | t :: ts => (c :: t) :: ts

/-- `msg.split(" ")` from line 111 of `rpc_server.py`, on Lean strings. -/
def pySplit (s : String) : List String :=
  (splitSpaces s.data).map String.mk

/-- The first token of a message (`parts[0]`); total because `split` never
returns an empty list. -/
def firstToken (msg : String) : String :=
  (pySplit msg).headD ""

/-- Command-line arguments produced by `parseCmdLineArgs` (lines 133-142):
the single supported option is the port. -/
structure Args where
  port : String
deriving Repr, DecidableEq

/-- `parseCmdLineArgs`: one optional argument `-p` (alias `--port`); when absent on the
command line the default string `"5557"` is used. -/
def parseCmdLineArgs (portArg : Option String) : Args :=
  { port := portArg.getD "5557" }

/-- The server implementation object (`ServerImpl.__init__`, lines 30-32):
it stores the port from the parsed arguments; `socketId` models the identity
of the ZeroMQ socket it binds. -/
structure ServerImpl where
  port : String
  socketId : Nat
deriving Repr, DecidableEq

/-- `ServerImpl.__init__`: stores `args.port`. -/
def ServerImpl.init (args : Args) (socketId : Nat) : ServerImpl :=
  { port := args.port, socketId := socketId }

/-- The address string `"tcp://*:" + self.port` computed by `ServerImpl.bind`
(line 41). -/
def ServerImpl.bind_str (impl : ServerImpl) : String :=
  "tcp://*:" ++ impl.port

/-- `ServerImpl.get` (lines 44-49): returns the key unchanged. -/
def ServerImpl.get (_impl : ServerImpl) (key : String) : String :=
  key

/-- `ServerImpl.put` (lines 51-57): ignores its arguments and returns the
fixed string `"ACK"`. -/
def ServerImpl.put (_impl : ServerImpl) (_key _value : String) : String :=
  "ACK"

/-- A record of one upcall made on the registered implementation. -/
inductive HandlerCall where
  | get : String → HandlerCall
  | put : String → String → HandlerCall
deriving Repr, DecidableEq

/-- `Reactor.handle_message` (lines 105-126), after the `recv_string`:
split the message on spaces, dispatch on `parts[0]`.
Returns the reply string sent over the socket together with the list of
upcalls made on the implementation; `none` models the uncaught
`IndexError` raised when `parts[1]` or `parts[2]` does not exist
(in which case no reply is sent and the process aborts). -/
def handle_message (impl : ServerImpl) (msg : String) : Option (String × List HandlerCall) :=
  let parts := pySplit msg
  match parts.get? 0 with
  | none => none
  | some verb =>
    if verb = "GET" then
      match parts.get? 1 with
      | none => none
      | some key => some (impl.get key, [HandlerCall.get key])
    else if verb = "PUT" then
      match parts.get? 1, parts.get? 2 with
      | some key, some value =>
        let _ret := impl.put key value
        some ("ack", [HandlerCall.put key value])
      | _, _ => none
    else
      some ("Sorry, unrecognized command", [])

/-- The reactor's event-loop state (`Reactor.__init__`, lines 72-75): the
single registered implementation and the poller's registered socket ids. -/
structure Reactor where
  impl : Option ServerImpl
  pollerRegs : List Nat
deriving Repr, DecidableEq

/-- A fresh reactor: no implementation registered, empty poller. -/
def Reactor.init : Reactor :=
  { impl := none, pollerRegs := [] }

/-- `Reactor.register` (lines 80-82): overwrite `self.impl` with the new
implementation and add its socket to the poller's wait set. -/
def Reactor.register (r : Reactor) (impl : ServerImpl) : Reactor :=
  { impl := some impl, pollerRegs := r.pollerRegs ++ [impl.socketId] }

/-- One iteration of `Reactor.event_loop` (lines 89-99): given the set of
ready sockets reported by the poller, the message is handled (on the
registered implementation) only when `self.impl.socket` is among them. -/
def Reactor.dispatchTarget (r : Reactor) (events : List Nat) : Option ServerImpl :=
  match r.impl with
  | some impl => if impl.socketId ∈ events then some impl else none
  | none => none

/-- Sequential handling of a list of inbound messages, one reply each;
`none` as soon as one message makes `handle_message` fault. -/
def event_run (impl : ServerImpl) : List String → Option (List String)
  | [] => some []
  | m :: ms =>
    match handle_message impl m with
    | none => none
    | some (reply, _) =>
      match event_run impl ms with
      | none => none
      | some rs => some (reply :: rs)

/-- A sample implementation object on the default port. -/
def impl0 : ServerImpl := { port := "5557", socketId := 0 }

/-! ### Facts about `splitSpaces` -/

theorem splitSpaces_ne_nil (l : List Char) : splitSpaces l ≠ [] := by
  cases l with
  | nil => simp [splitSpaces]
  | cons c rest =>
    simp only [splitSpaces]
    split
    · simp
    · cases h : splitSpaces rest <;> simp

theorem splitSpaces_space_cons (rest : List Char) :
    splitSpaces (' ' :: rest) = [] :: splitSpaces rest := by
  simp [splitSpaces]

theorem splitSpaces_no_space (l : List Char) (h : ' ' ∉ l) :
    splitSpaces l = [l] := by
  induction l with
  | nil => rfl
  | cons c rest ih =>
    have hc : c ≠ ' ' := fun hc => h (hc ▸ List.mem_cons_self c rest)
    have hrest : ' ' ∉ rest := fun hm => h (List.mem_cons_of_mem c hm)
    simp [splitSpaces, hc, ih hrest]

theorem splitSpaces_token_cons (t rest : List Char) (h : ' ' ∉ t) :
    splitSpaces (t ++ ' ' :: rest) = t :: splitSpaces rest := by
  induction t with
  | nil => simpa using splitSpaces_space_cons rest
  | cons c t ih =>
    have hc : c ≠ ' ' := fun hc => h (hc ▸ List.mem_cons_self c t)
    have ht : ' ' ∉ t := fun hm => h (List.mem_cons_of_mem c hm)
    simp only [List.cons_append, splitSpaces, if_neg hc, List.append_eq, ih ht]

theorem pySplit_ne_nil (s : String) : pySplit s ≠ [] := by
  unfold pySplit
  intro h
  exact splitSpaces_ne_nil s.data (List.map_eq_nil_iff.mp h)

theorem String.mk_data (s : String) : String.mk s.data = s := rfl

theorem pySplit_no_space (t : String) (h : ' ' ∉ t.data) : pySplit t = [t] := by
  unfold pySplit
  rw [splitSpaces_no_space t.data h]
  simp [String.mk_data]

theorem pySplit_token_cons (t rest : String) (h : ' ' ∉ t.data) :
    pySplit (t ++ " " ++ rest) = t :: pySplit rest := by
  unfold pySplit
  have hdata : (t ++ " " ++ rest).data = t.data ++ ' ' :: rest.data := by
    simp [String.data_append]
  rw [hdata, splitSpaces_token_cons t.data rest.data h]
  simp [String.mk_data, pySplit]

theorem pySplit_get_zero (msg : String) : (pySplit msg)[0]? = some (firstToken msg) := by
  have h := pySplit_ne_nil msg
  cases hp : pySplit msg with
  | nil => exact absurd hp h
  | cons t ts => simp [firstToken, hp]

theorem pySplit_GET (key : String) (h : ' ' ∉ key.data) :
    pySplit ("GET " ++ key) = ["GET", key] := by
  have hmsg : ("GET " ++ key) = "GET" ++ " " ++ key := by
    apply String.ext
    simp [String.data_append]
  rw [hmsg, pySplit_token_cons "GET" key (by decide), pySplit_no_space key h]

theorem pySplit_PUT (key value : String) (hk : ' ' ∉ key.data) (hv : ' ' ∉ value.data) :
    pySplit ("PUT " ++ key ++ " " ++ value) = ["PUT", key, value] := by
  have hmsg : ("PUT " ++ key ++ " " ++ value) = "PUT" ++ " " ++ (key ++ " " ++ value) := by
    apply String.ext
    simp [String.data_append]
  rw [hmsg, pySplit_token_cons "PUT" (key ++ " " ++ value) (by decide),
    pySplit_token_cons key value hk, pySplit_no_space value hv]

/-! ### Facts about `handle_message`, shared by the claims below -/

theorem handle_message_split (impl : ServerImpl) (msg key : String) (more : List String)
    (h : pySplit msg = "GET" :: key :: more) :
    handle_message impl msg = some (key, [HandlerCall.get key]) := by
  simp [handle_message, h, ServerImpl.get]

theorem handle_message_split_put (impl : ServerImpl) (msg key value : String)
    (more : List String) (h : pySplit msg = "PUT" :: key :: value :: more) :
    handle_message impl msg = some ("ack", [HandlerCall.put key value]) := by
  simp [handle_message, h]

theorem handle_message_GET (impl : ServerImpl) (key : String) (h : ' ' ∉ key.data) :
    handle_message impl ("GET " ++ key) = some (key, [HandlerCall.get key]) :=
  handle_message_split impl _ key [] (pySplit_GET key h)

theorem handle_message_PUT (impl : ServerImpl) (key value : String)
    (hk : ' ' ∉ key.data) (hv : ' ' ∉ value.data) :
    handle_message impl ("PUT " ++ key ++ " " ++ value)
      = some ("ack", [HandlerCall.put key value]) :=
  handle_message_split_put impl _ key value [] (pySplit_PUT key value hk hv)

theorem handle_message_other (impl : ServerImpl) (msg : String)
    (h1 : firstToken msg ≠ "GET") (h2 : firstToken msg ≠ "PUT") :
    handle_message impl msg = some ("Sorry, unrecognized command", []) := by
  simp [handle_message, pySplit_get_zero, h1, h2]

/-! ### The claims -/

/-- C1: contrary to the spec's no-crash requirement, `handle_message` faults
(uncaught `IndexError`, modelled as `none`) on a `GET` with no key and on a
`PUT` with no value, sending no reply at all instead of the
unrecognized-command reply. -/
theorem c1_missing_tokens_fault :
    handle_message impl0 "GET" = none ∧ handle_message impl0 "PUT k" = none ∧
      handle_message impl0 "PUT" = none ∧
      handle_message impl0 "GET" ≠ some ("Sorry, unrecognized command", []) := by
  decide

/-- C2: for every well-formed `GET <key>` request (key a single space-free
token), the reply equals the key, which is exactly what `ServerImpl.get`
returns, namely its argument unchanged. -/
theorem c2_get_reply_echoes_key (impl : ServerImpl) (key : String) (h : ' ' ∉ key.data) :
    handle_message impl ("GET " ++ key) = some (impl.get key, [HandlerCall.get key])
      ∧ impl.get key = key :=
  ⟨handle_message_GET impl key h, rfl⟩

/-- C2 witness: `"GET hello"` replies `"hello"`. -/
theorem c2_get_reply_echoes_key_witness :
    handle_message impl0 ("GET " ++ "hello")
        = some (impl0.get "hello", [HandlerCall.get "hello"])
      ∧ impl0.get "hello" = "hello" :=
  c2_get_reply_echoes_key impl0 "hello" (by decide)

/-- C3: for every well-formed `PUT <key> <value>` request the reply is the
literal `"ack"`, while `ServerImpl.put` returns `"ACK"`, which is a different
string and is not forwarded. -/
theorem c3_put_reply_is_ack (impl : ServerImpl) (key value : String)
    (hk : ' ' ∉ key.data) (hv : ' ' ∉ value.data) :
    handle_message impl ("PUT " ++ key ++ " " ++ value)
        = some ("ack", [HandlerCall.put key value])
      ∧ impl.put key value = "ACK" ∧ ("ack" : String) ≠ "ACK" :=
  ⟨handle_message_PUT impl key value hk hv, rfl, by decide⟩

/-- C3 witness: `"PUT foo bar"` replies `"ack"`. -/
theorem c3_put_reply_is_ack_witness :
    handle_message impl0 ("PUT " ++ "foo" ++ " " ++ "bar")
        = some ("ack", [HandlerCall.put "foo" "bar"])
      ∧ impl0.put "foo" "bar" = "ACK" ∧ ("ack" : String) ≠ "ACK" :=
  c3_put_reply_is_ack impl0 "foo" "bar" (by decide) (by decide)

/-- C4: any message whose first space-delimited token is neither `"GET"` nor
`"PUT"` gets exactly the reply `"Sorry, unrecognized command"` and no handler
operation is invoked (the upcall list is empty). -/
theorem c4_unknown_verb_reply (impl : ServerImpl) (msg : String)
    (h1 : firstToken msg ≠ "GET") (h2 : firstToken msg ≠ "PUT") :
    handle_message impl msg = some ("Sorry, unrecognized command", []) :=
  handle_message_other impl msg h1 h2

/-- C4 witness: `"DELETE foo"` gets the unrecognized-command reply. -/
theorem c4_unknown_verb_reply_witness :
    handle_message impl0 "DELETE foo" = some ("Sorry, unrecognized command", []) :=
  c4_unknown_verb_reply impl0 "DELETE foo" (by decide) (by decide)

/-- C5 counterexample: one received request can yield zero replies: on the
message `"GET"` the handler faults before any send, so one sequential request
produces no reply rather than exactly one. -/
theorem c5_counterexample : event_run impl0 ["GET"] = none ∧ handle_message impl0 "GET" ≠
    some (("Sorry, unrecognized command", []) : String × List HandlerCall) ∧
    (∀ r : String × List HandlerCall, handle_message impl0 "GET" ≠ some r) := by
  refine ⟨by decide, by decide, fun r => ?_⟩
  intro hr
  exact Option.noConfusion ((rfl : handle_message impl0 "GET" = none) ▸ hr)

/-- C5 (amended): for every sequence of requests on which `handle_message`
does not fault (each GET has its key, each PUT its key and value, or the verb
is unknown), the run produces exactly one reply per request, in order. -/
theorem c5_one_reply_per_request (impl : ServerImpl) (msgs : List String)
    (h : ∀ m ∈ msgs, (handle_message impl m).isSome) :
    ∃ rs, event_run impl msgs = some rs ∧ rs.length = msgs.length ∧
      rs.map some = msgs.map (fun m => (handle_message impl m).map Prod.fst) := by
  induction msgs with
  | nil => exact ⟨[], rfl, rfl, rfl⟩
  | cons m ms ih =>
    have hm := h m (List.mem_cons_self m ms)
    obtain ⟨⟨reply, calls⟩, hmr⟩ := Option.isSome_iff_exists.mp hm
    obtain ⟨rs, hrun, hlen, hmap⟩ := ih (fun x hx => h x (List.mem_cons_of_mem m hx))
    refine ⟨reply :: rs, ?_, ?_, ?_⟩
    · simp [event_run, hmr, hrun]
    · simp [hlen]
    · simp [hmr, hmap]

/-- C5 witness: the two sequential requests `"GET a"` then `"PUT b c"` yield
exactly two replies, in order. -/
theorem c5_one_reply_per_request_witness :
    ∃ rs, event_run impl0 ["GET a", "PUT b c"] = some rs ∧
      rs.length = (["GET a", "PUT b c"] : List String).length ∧
      rs.map some = (["GET a", "PUT b c"] : List String).map
        (fun m => (handle_message impl0 m).map Prod.fst) :=
  c5_one_reply_per_request impl0 ["GET a", "PUT b c"] (by decide)

/-- C6: dispatching is deterministic and idempotent: handling the same
well-formed `GET <key>` request twice in a row produces the same reply
(the key) both times. -/
theorem c6_get_idempotent (impl : ServerImpl) (key : String) (h : ' ' ∉ key.data) :
    event_run impl ["GET " ++ key, "GET " ++ key] = some [key, key]
      ∧ handle_message impl ("GET " ++ key) = handle_message impl ("GET " ++ key) := by
  refine ⟨?_, rfl⟩
  simp [event_run, handle_message_GET impl key h]

/-- C6 witness: handling `"GET a"` twice replies `"a"` both times. -/
theorem c6_get_idempotent_witness :
    event_run impl0 ["GET " ++ "a", "GET " ++ "a"] = some ["a", "a"]
      ∧ handle_message impl0 ("GET " ++ "a") = handle_message impl0 ("GET " ++ "a") :=
  c6_get_idempotent impl0 "a" (by decide)

/-- C7: registering a second implementation silently replaces the first:
after `register h1; register h2` the reactor's implementation is `h2`, and
every dispatch a poll cycle performs targets `h2` (or nothing, when `h2`'s
socket is not ready). -/
theorem c7_register_replaces (h1 h2 : ServerImpl) :
    ((Reactor.init.register h1).register h2).impl = some h2 ∧
      ∀ events : List Nat,
        ((Reactor.init.register h1).register h2).dispatchTarget events = none ∨
        ((Reactor.init.register h1).register h2).dispatchTarget events = some h2 := by
  refine ⟨rfl, fun events => ?_⟩
  by_cases hmem : h2.socketId ∈ events <;>
    simp [Reactor.dispatchTarget, Reactor.register, hmem]

/-- C8: the single configuration option is the port; when absent it defaults
to the string `"5557"`, and `bind` uses the address `"tcp://*:" ++ port`,
hence `"tcp://*:5557"` by default. -/
theorem c8_default_port :
    (parseCmdLineArgs none).port = "5557" ∧
      (ServerImpl.init (parseCmdLineArgs none) 0).bind_str = "tcp://*:5557" ∧
      ∀ (args : Args) (sid : Nat),
        (ServerImpl.init args sid).bind_str = "tcp://*:" ++ args.port :=
  ⟨rfl, by decide, fun _ _ => rfl⟩

/-- C9: the empty message does not fault: `"".split(" ")` is `[""]`, whose
first element `""` is neither `"GET"` nor `"PUT"`, so the unrecognized-command
reply is sent; likewise for lowercase `"get"`/`"put"` verbs. -/
theorem c9_empty_message_safe (impl : ServerImpl) :
    pySplit "" = [""] ∧
      handle_message impl "" = some ("Sorry, unrecognized command", []) ∧
      handle_message impl "get hello" = some ("Sorry, unrecognized command", []) ∧
      handle_message impl "put k v" = some ("Sorry, unrecognized command", []) :=
  ⟨by decide, rfl, rfl, rfl⟩

/-- C10: extra trailing tokens are ignored: with first token `"GET"` and at
least two tokens, the reply is the second token only; with first token
`"PUT"` and at least three tokens, the reply is `"ack"` and only the second
and third tokens reach `put`. -/
theorem c10_extra_tokens_ignored (impl : ServerImpl) :
    (∀ msg key more, pySplit msg = "GET" :: key :: more →
        handle_message impl msg = some (key, [HandlerCall.get key])) ∧
      (∀ msg key value more, pySplit msg = "PUT" :: key :: value :: more →
        handle_message impl msg = some ("ack", [HandlerCall.put key value])) :=
  ⟨fun msg key more h => handle_message_split impl msg key more h,
   fun msg key value more h => handle_message_split_put impl msg key value more h⟩

/-- C10 witness: `"GET a b"` replies `"a"`; `"PUT k v extra"` replies
`"ack"` with only `k`, `v` passed to `put`. -/
theorem c10_extra_tokens_ignored_witness :
    handle_message impl0 "GET a b" = some ("a", [HandlerCall.get "a"]) ∧
      handle_message impl0 "PUT k v extra" = some ("ack", [HandlerCall.put "k" "v"]) :=
  ⟨(c10_extra_tokens_ignored impl0).1 "GET a b" "a" ["b"] (by decide),
   (c10_extra_tokens_ignored impl0).2 "PUT k v extra" "k" "v" ["extra"] (by decide)⟩

end RpcServer
